import Mathlib

/-!
Verification of the agent state-tracking core (`lib/compressor.py`,
`lib/session_tracker.py`, `lib/logger.py`, `db/init_db.py`) as a shallow
embedding.  Python values are embedded as inductives, the SQLite store as
lists of row structures, and each logger operation as an explicit state
transformer.  Machine-level collaborators (gzip, hashlib, json.loads) are
modelled at their contracts by executable definitions.
-/

set_option linter.unusedVariables false

/-! ## JSON values and the `json.dumps` serializer -/

/-- Embedding of the JSON-serializable Python values that flow through the
logging core (`None`, booleans, integers, strings, lists, dicts).  Floats do
not occur in the core's payloads and are outside the embedding. -/
inductive JVal where
  | jnull : JVal
  | jbool (b : Bool) : JVal
  | jnum (n : Int) : JVal
  | jstr (s : String) : JVal
  | jarr (xs : List JVal) : JVal
  | jobj (fields : List (String × JVal)) : JVal
deriving Repr

/-- Lowercase hex digit. -/
def hexDigit (n : Nat) : Char :=
  if n < 10 then Char.ofNat (48 + n) else Char.ofNat (87 + n)

/-- Four-digit lowercase hex, as in Python's `\uXXXX` escapes. -/
def hex4 (n : Nat) : String :=
  String.mk [hexDigit (n / 4096 % 16), hexDigit (n / 256 % 16),
             hexDigit (n / 16 % 16), hexDigit (n % 16)]

/-- Escaping of one character inside a JSON string, following
`json.dumps` with its default `ensure_ascii=True`: two-character escapes for
quote, backslash and the common control characters, `\uXXXX` for the other
control characters and all non-ASCII characters (surrogate pairs above the
basic multilingual plane). -/
def escChar (c : Char) : String :=
  if c = '"' then "\\\""
  else if c = '\\' then "\\\\"
  else if c.toNat = 8 then "\\b"
  else if c.toNat = 9 then "\\t"
  else if c.toNat = 10 then "\\n"
  else if c.toNat = 12 then "\\f"
  else if c.toNat = 13 then "\\r"
  else if c.toNat < 32 then "\\u" ++ hex4 c.toNat
  else if c.toNat < 128 then String.singleton c
  else if c.toNat ≤ 65535 then "\\u" ++ hex4 c.toNat
  else
    let v := c.toNat - 65536
    "\\u" ++ hex4 (55296 + v / 1024) ++ "\\u" ++ hex4 (56320 + v % 1024)

/-- A JSON string literal as `json.dumps` renders it. -/
def dumpJStr (s : String) : String :=
  "\"" ++ String.join (s.data.map escChar) ++ "\""

/-- `json.dumps(v, separators=(isep, ksep))`: the serializer used by the
core, parameterized by the item and key separators (Python's default is
`(", ", ": ")`; the compressor passes `(",", ":")`). -/
def dumpsSep (isep ksep : String) : JVal → String
  | .jnull => "null"
  | .jbool true => "true"
  | .jbool false => "false"
  | .jnum n => toString n
  | .jstr s => dumpJStr s
  | .jarr xs =>
      "[" ++ String.intercalate isep (xs.attach.map (fun x => dumpsSep isep ksep x.1)) ++ "]"
  | .jobj fs =>
      "\x7b" ++ String.intercalate isep
        (fs.attach.map (fun kv => dumpJStr kv.1.1 ++ ksep ++ dumpsSep isep ksep kv.1.2)) ++ "\x7d"
termination_by v => sizeOf v
decreasing_by
  · have := List.sizeOf_lt_of_mem x.2
    simp only [JVal.jarr.sizeOf_spec]
    omega
  · have h1 := List.sizeOf_lt_of_mem kv.2
    have h2 : sizeOf kv.1.2 < sizeOf kv.1 := by
      obtain ⟨a, b⟩ := kv.1
      simp only [Prod.mk.sizeOf_spec]
      omega
    simp only [JVal.jobj.sizeOf_spec]
    omega

/-- `json.dumps(v, separators=(',', ':'))` — the compact serialization used
by `compress_if_large` and `compress_data`. -/
def dumpsCompact (v : JVal) : String := dumpsSep "," ":" v

/-- `json.dumps(v)` with Python's default separators, used for
`metadata_json` in `log_session_start`. -/
def dumpsDefault (v : JVal) : String := dumpsSep ", " ": " v

/-! ## Compressor (`lib/compressor.py`) -/

/-- The payloads the logging core hands to the compressor: Python `str`,
`dict` and `list` values (`lib/compressor.py` also accepts raw `bytes` and
arbitrary objects, but the logger only ever passes these three shapes, and
they are the domain of the spec's compressor claims). -/
inductive PyData where
  | ofStr (s : String) : PyData
  | ofDict (fields : List (String × JVal)) : PyData
  | ofList (xs : List JVal) : PyData
deriving Repr

/-- Model of byte strings as they occur in the compressor's data flow.
`gz payload` is a valid gzip stream whose decompressed bytes are the UTF-8
encoding of `payload` (the only blobs this system ever writes); `raw bs`
stands for any other byte string.  A gzip stream always begins with a
header, so a `gz` blob is never the empty (falsy) byte string. -/
inductive Bytes where
  | gz (payload : String) : Bytes
  | raw (bs : List Nat) : Bytes
deriving Repr, DecidableEq

/-- Python truthiness of a byte string (`if not compressed_blob`). -/
def bytesTruthy : Bytes → Bool
  | .gz _ => true
  | .raw bs => !bs.isEmpty

/-- `len(s.encode('utf-8'))`: the UTF-8 byte length the compressor measures
payload sizes with. -/
def utf8Len (s : String) : Nat :=
  s.data.foldl (fun n c => n + c.utf8Size) 0

/-- `DEFAULT_COMPRESSION_THRESHOLD = 10240` (`lib/compressor.py` line 7). -/
def DEFAULT_COMPRESSION_THRESHOLD : Nat := 10240

/-- The value `compress_if_large` returns for storage: a `str` destined for
the `*_json` text column, or a byte blob destined for the `*_compressed`
column. -/
inductive Stored where
  | text (s : String) : Stored
  | blob (b : Bytes) : Stored
deriving Repr

def Stored.asText : Stored → Option String
  | .text s => some s
  | .blob _ => none

def Stored.asBlob : Stored → Option Bytes
  | .blob b => some b
  | .text _ => none

/-- `compress_if_large(data, threshold)` (`lib/compressor.py` lines 32-64):
serialize dict/list payloads with compact separators (a str is its own
serialization), then gzip-compress exactly when the UTF-8 byte length
exceeds the threshold. -/
def compress_if_large (data : PyData) (threshold : Nat) : Stored × Bool :=
  let json_str : String :=
    match data with
    | .ofDict f => dumpsCompact (.jobj f)
    | .ofList xs => dumpsCompact (.jarr xs)
    | .ofStr s => s
  if utf8Len json_str > threshold then
    (.blob (Bytes.gz json_str), true)
  else
    (.text json_str, false)

/-- `compress_data(data)` (`lib/compressor.py` lines 67-85): unconditional
compression; dict/list payloads are serialized with compact separators
first. -/
def compress_data (data : PyData) : Bytes :=
  let data_bytes : String :=
    match data with
    | .ofDict f => dumpsCompact (.jobj f)
    | .ofList xs => dumpsCompact (.jarr xs)
    | .ofStr s => s
  Bytes.gz data_bytes

/-- `decompress_data(blob)` (`lib/compressor.py` lines 88-104): `None` for a
falsy (absent or empty) blob, the decompressed UTF-8 text for a valid gzip
stream, and `ValueError` — modelled as `Except.error` — for anything
else. -/
def decompress_data (blob : Option Bytes) : Except String (Option String) :=
  match blob with
  | none => .ok none
  | some b =>
    if !bytesTruthy b then .ok none
    else
      match b with
      | .gz p => .ok (some p)
      | .raw _ => .error "Failed to decompress data"

/-- The canonical serialization named by the spec's compressor claims: the
string itself for a str payload, the compact JSON rendering for dict/list
payloads. -/
def canonicalSerialize : PyData → String
  | .ofStr s => s
  | .ofDict f => dumpsCompact (.jobj f)
  | .ofList xs => dumpsCompact (.jarr xs)

/-! ## Row extraction (`get_data_from_row`, `lib/compressor.py` lines 107-148) -/

/-- A value as SQLite hands it back: NULL, integer, text, or blob. -/
inductive SqlVal where
  | null : SqlVal
  | int (n : Int) : SqlVal
  | text (s : String) : SqlVal
  | blob (b : Bytes) : SqlVal
deriving Repr

/-- Python truthiness of a column value. -/
def SqlVal.truthy : SqlVal → Bool
  | .null => false
  | .int n => n != 0
  | .text s => s != ""
  | .blob b => bytesTruthy b

/-- A database row as `get_data_from_row` receives it: dict-like
(`sqlite3.Row`, addressed by column name) or a plain tuple. -/
inductive SqlRow where
  | map (fields : List (String × SqlVal)) : SqlRow
  | tup (vals : List SqlVal) : SqlRow
deriving Repr

/-- `row[col] if col in row.keys() else ...`: column lookup by name. -/
def rowGet (fields : List (String × SqlVal)) (col : String) : Option SqlVal :=
  (fields.find? (fun kv => kv.1 == col)).map (·.2)

/-- Python truthiness of an optional column value (`False`/`None` when the
column is absent). -/
def colTruthy (v : Option SqlVal) : Bool :=
  match v with
  | some w => w.truthy
  | none => false

/-- What `get_data_from_row` hands back: a parsed JSON value, or the raw
string when `json.loads` fails. -/
inductive ExtractVal where
  | json (v : JVal) : ExtractVal
  | str (s : String) : ExtractVal
deriving Repr

/-- The body of `get_data_from_row` inside its `try`; exceptions raised by
`gzip`/`json` on ill-typed column values surface as `Except.error`.  The
external `json.loads` parser is the `loads` parameter (`none` = parse
failure); no claim depends on its output.  The system only ever stores
text or NULL in `*_json` columns and blobs or NULL in `*_compressed`
columns, so only those column shapes decode. -/
def get_data_from_row_body (loads : String → Option JVal) (fields : List (String × SqlVal))
    (json_col compressed_col flag_col : String) : Except String (Option ExtractVal) :=
  let is_compressed : Bool := colTruthy (rowGet fields flag_col)
  let json_data : Option SqlVal := rowGet fields json_col
  let compressed_data : Option SqlVal := rowGet fields compressed_col
  if is_compressed && colTruthy compressed_data then
    match compressed_data with
    | some (.blob b) =>
      match decompress_data (some b) with
      | .error e => .error e
      | .ok none => .ok none
      | .ok (some s) =>
        match loads s with
        | some v => .ok (some (.json v))
        | none => .ok (some (.str s))
    | _ => .error "TypeError"
  else if colTruthy json_data then
    match json_data with
    | some (.text s) =>
      match loads s with
      | some v => .ok (some (.json v))
      | none => .ok (some (.str s))
    | _ => .error "TypeError"
  else
    .ok none

/-- `get_data_from_row(row, json_col, compressed_col, flag_col)`
(`lib/compressor.py` lines 107-148).  Tuple rows return `None`; the outer
`try`/`except` turns every internal error into `None`, so the function is
total and never raises. -/
def get_data_from_row (loads : String → Option JVal) (row : SqlRow)
    (json_col compressed_col flag_col : String) : Option ExtractVal :=
  match row with
  | .tup _ => none
  | .map fields =>
    match get_data_from_row_body loads fields json_col compressed_col flag_col with
    | .ok v => v
    | .error _ => none

/-! ## Context resolution (`lib/session_tracker.py`) -/

/-- The module-level `_current_context` cache: current session id, current
agent id, and the nested-agent stack (Python list order, top last). -/
structure Ctx where
  session_id : Option String
  agent_id : Option String
  agent_stack : List String
deriving Repr

/-- The empty context a fresh process starts with. -/
def ctx0 : Ctx := ⟨none, none, []⟩

/-- A `session-*` marker file in `~/.claude/session-env`, with its
modification time. -/
structure MarkerFile where
  name : String
  mtime : Nat
deriving Repr

/-- A `*.output` candidate file in a `/tmp/claude/<x>/tasks` directory, in
directory listing order, with its modification time. -/
structure TaskFile where
  name : String
  mtime : Nat
deriving Repr

/-- One `/tmp/claude/<x>/tasks` directory: its own modification time and its
files in listing order. -/
structure TaskDir where
  mtime : Nat
  files : List TaskFile
deriving Repr

/-- The ambient signals the tracker reads: environment variables, the
session marker directory (`none` = directory absent), the temporary task
area (`none` = absent), the history file's last user command, the working
directory, and the wall clock / pid feeding `generate_session_id`. -/
structure Env where
  claude_session_id : Option String
  claude_agent_id : Option String
  session_env_dir : Option (List MarkerFile)
  tmp_claude : Option (List TaskDir)
  history_command : Option String
  cwd : String
  now : String
  pid : Nat
deriving Repr

/-- Python truthiness of an optional string (`if s:`). -/
def optTruthy : Option String → Bool
  | none => false
  | some s => s != ""

/-- Executable model of the external `hashlib.sha256(...).hexdigest()`: a
deterministic digest of the input string.  The tracker and logger rely only
on it being a fixed function of the hashed text. -/
def sha256hex (s : String) : String :=
  let h : Nat := s.data.foldl (fun a c => (a * 131 + c.toNat + 7) % (2 ^ 64)) 5381
  let digits := (List.range 64).map (fun i => hexDigit ((h / 16 ^ (i % 16) + i) % 16))
  String.mk digits

/-- `generate_session_id()` (`lib/session_tracker.py` lines 17-27): digest
of timestamp and pid, truncated to 16 characters. -/
def generate_session_id (env : Env) : String :=
  (sha256hex (env.now ++ "-" ++ toString env.pid)).take 16

/-- The greatest index of `'.'` in a character list, if any. -/
def lastDotPos (cs : List Char) : Option Nat :=
  match cs.reverse.findIdx? (· = '.') with
  | some j => some (cs.length - 1 - j)
  | none => none

/-- `pathlib.Path(name).stem`: the name minus its final suffix; a name has a
suffix only when its last dot is neither the first nor past the last
character. -/
def stem (n : String) : String :=
  let cs := n.data
  match lastDotPos cs with
  | some i => if 0 < i ∧ i + 1 < cs.length then String.mk (cs.take i) else n
  | none => n

/-- `max(files, key=lambda p: p.stat().st_mtime)`: Python's `max` keeps the
first of equally recent files. -/
def maxByMtimeFirst : List MarkerFile → Option MarkerFile
  | [] => none
  | x :: xs => some (xs.foldl (fun acc y => if y.mtime > acc.mtime then y else acc) x)

/-- Fallback 4 of `get_current_session`: generate a fresh id and cache it. -/
def sessionFromGenerate (env : Env) (ctx : Ctx) : String × Ctx :=
  let sid := generate_session_id env
  (sid, { ctx with session_id := some sid })

/-- Fallback 3 of `get_current_session`: the most recent `session-*` marker
in `~/.claude/session-env`; its stem minus the `session-` prefix is the id. -/
def sessionFromMarkers (env : Env) (ctx : Ctx) : String × Ctx :=
  match env.session_env_dir with
  | some files =>
    let session_files := files.filter (fun f => f.name.startsWith "session-")
    match maxByMtimeFirst session_files with
    | some latest =>
      let sid := (stem latest.name).replace "session-" ""
      (sid, { ctx with session_id := some sid })
    | none => sessionFromGenerate env ctx
  | none => sessionFromGenerate env ctx

/-- Fallback 2 of `get_current_session`: the `CLAUDE_SESSION_ID` environment
variable, when truthy. -/
def sessionFromEnvVar (env : Env) (ctx : Ctx) : String × Ctx :=
  match env.claude_session_id with
  | some s => if s == "" then sessionFromMarkers env ctx else (s, { ctx with session_id := some s })
  | none => sessionFromMarkers env ctx

/-- `get_current_session()` (`lib/session_tracker.py` lines 30-67): cached
value, then environment variable, then marker files, then a freshly
generated id; every successful resolution is cached. -/
def get_current_session (env : Env) (ctx : Ctx) : String × Ctx :=
  match ctx.session_id with
  | some s => if s == "" then sessionFromEnvVar env ctx else (s, ctx)
  | none => sessionFromEnvVar env ctx

/-- Python's `str.endswith` / the suffix a `*.output` glob demands, as a
suffix test on the character lists. -/
def strEndsWith (s suffix : String) : Bool :=
  List.isSuffixOf suffix.data s.data

/-- `glob('*.output')` inside one tasks directory: the output files in
listing order. -/
def outputFiles (d : TaskDir) : List TaskFile :=
  d.files.filter (fun f => strEndsWith f.name ".output")

/-- The descending-mtime ordering `sorted(task_dirs, key=mtime,
reverse=True)` sorts by.  Python's sort is stable, and for a total preorder
a stable sort is extensionally unique, so `List.insertionSort` computes the
same list. -/
def dirGE (a b : TaskDir) : Prop := b.mtime ≤ a.mtime

instance : DecidableRel dirGE := fun a b => Nat.decLe b.mtime a.mtime

instance : IsTotal TaskDir dirGE :=
  ⟨fun a b => Nat.le_total b.mtime a.mtime⟩

instance : IsTrans TaskDir dirGE :=
  ⟨fun _ _ _ h1 h2 => Nat.le_trans h2 h1⟩

/-- `sorted(task_dirs, key=lambda p: p.stat().st_mtime, reverse=True)`. -/
def sortTaskDirsDesc (ds : List TaskDir) : List TaskDir :=
  List.insertionSort dirGE ds

/-- The `for task_dir in sorted(...)` loop: the first directory with any
`*.output` file yields the stem of its first-listed output file. -/
def scanTaskDirs : List TaskDir → Option String
  | [] => none
  | d :: ds =>
    match (outputFiles d).head? with
    | some f => some (stem f.name)
    | none => scanTaskDirs ds

/-- `parse_agent_from_environment()` (`lib/session_tracker.py` lines
105-125): scan `/tmp/claude/*/tasks` directories, most recently modified
first, and return the stem of the first output file found. -/
def parse_agent_from_environment (env : Env) : Option String :=
  match env.tmp_claude with
  | none => none
  | some task_dirs =>
    if task_dirs.isEmpty then none
    else scanTaskDirs (sortTaskDirsDesc task_dirs)

/-- Fallback 4 of `get_current_agent`: best-effort inference from the task
output area; a truthy result is cached. -/
def agentFromParse (env : Env) (ctx : Ctx) : Option String × Ctx :=
  match parse_agent_from_environment env with
  | some a => if a == "" then (none, ctx) else (some a, { ctx with agent_id := some a })
  | none => (none, ctx)

/-- Fallback 3 of `get_current_agent`: the cached agent id, when truthy. -/
def agentFromCache (env : Env) (ctx : Ctx) : Option String × Ctx :=
  match ctx.agent_id with
  | some a => if a == "" then agentFromParse env ctx else (some a, ctx)
  | none => agentFromParse env ctx

/-- Fallback 2 of `get_current_agent`: the top (last element) of the
nested-agent stack, when the stack is nonempty. -/
def agentFromStack (env : Env) (ctx : Ctx) : Option String × Ctx :=
  match ctx.agent_stack.getLast? with
  | some a => (some a, ctx)
  | none => agentFromCache env ctx

/-- `get_current_agent()` (`lib/session_tracker.py` lines 70-102):
environment variable, then agent stack, then cache, then task-output
inference, then `None` (main session). -/
def get_current_agent (env : Env) (ctx : Ctx) : Option String × Ctx :=
  match env.claude_agent_id with
  | some a => if a == "" then agentFromStack env ctx else (some a, ctx)
  | none => agentFromStack env ctx

/-! ## The store (`db/init_db.py` and the tables `lib/logger.py` writes) -/

/-- One row of `sessions`.  The columns are those the source reads and
writes; `working_directory` is always a string after `log_session_start`
fills its default. -/
structure SessionRow where
  session_id : String
  user_command : Option String
  working_directory : String
  metadata_json : Option String
  started_at : String
  ended_at : Option String
deriving Repr

/-- One row of `agents`. -/
structure AgentRow where
  agent_id : String
  session_id : String
  agent_name : String
  agent_type : Option String
  prompt : Option String
  user_command : Option String
  status : String
  completed_at : Option String
deriving Repr

/-- One row of `tool_calls`.  A single `is_compressed` flag column serves
the row, as in the source's INSERT and in the CLI's reads of both the
parameters and the result (`cli/query_logs.py` lines 153 and 159). -/
structure ToolCallRow where
  id : Nat
  agent_id : Option String
  session_id : String
  tool_name : String
  parameters_json : Option String
  parameters_compressed : Option Bytes
  is_compressed : Bool
  result_json : Option String
  result_compressed : Option Bytes
  status : String
  called_at : String
  completed_at : Option String
  duration_ms : Option Int
  error_message : Option String
deriving Repr

/-- One row of `modifications`. -/
structure ModificationRow where
  id : Nat
  tool_call_id : Option Nat
  agent_id : Option String
  modification_type : String
  file_path : String
  old_content_hash : Option String
  new_content_hash : Option String
  diff_compressed : Option Bytes
  modified_at : String
deriving Repr

/-- One row of `state_snapshots`. -/
structure SnapshotRow where
  id : Nat
  session_id : String
  agent_id : Option String
  snapshot_type : String
  state_json : Option String
  state_compressed : Option Bytes
  is_compressed : Bool
  created_at : String
deriving Repr

/-- The embedded store: one list per table, plus the next auto-assigned row
id for the tables whose `lastrowid` the source returns. -/
structure DB where
  sessions : List SessionRow
  agents : List AgentRow
  tool_calls : List ToolCallRow
  modifications : List ModificationRow
  state_snapshots : List SnapshotRow
  next_tool_call_id : Nat
  next_modification_id : Nat
  next_snapshot_id : Nat
deriving Repr

/-- A freshly provisioned store. -/
def emptyDB : DB := ⟨[], [], [], [], [], 1, 1, 1⟩

def sessionExists (db : DB) (sid : String) : Bool :=
  db.sessions.any (fun r => r.session_id == sid)

/-- Modelled from the spec: `db/schema.sql` is not in the source tree, so
the `sessions` uniqueness constraint behind `INSERT OR IGNORE` is taken
from the spec — "Session rows are unique per session_id; insert is
idempotent (insert-if-absent)".  The insert is therefore a no-op exactly
when a row with the same `session_id` already exists. -/
def insertSessionOrIgnore (db : DB) (r : SessionRow) : DB :=
  if sessionExists db r.session_id then db
  else { db with sessions := db.sessions ++ [r] }

/-- `log_session_start(session_id, user_command, working_directory,
metadata)` (`lib/logger.py` lines 21-56).  Missing arguments are filled
from the resolver and environment before the `try` block; `storeFail`
models the storage layer raising inside the `try` (the exception is caught,
a diagnostic printed, and the resolved id still returned). -/
def log_session_start (sid? uc? wd? : Option String)
    (metadata : Option (List (String × JVal))) (env : Env) (ctx : Ctx) (db : DB)
    (storeFail : Bool) : String × Ctx × DB :=
  let r1 : String × Ctx :=
    match sid? with
    | some s => (s, ctx)
    | none => get_current_session env ctx
  let sid := r1.1
  let ctx1 := r1.2
  let wd : String := match wd? with | some w => w | none => env.cwd
  let uc : Option String := match uc? with | some u => some u | none => env.history_command
  if storeFail then (sid, ctx1, db)
  else
    let metadata_json : Option String :=
      match metadata with
      | some m => if m.isEmpty then none else some (dumpsDefault (.jobj m))
      | none => none
    (sid, ctx1, insertSessionOrIgnore db
      { session_id := sid, user_command := uc, working_directory := wd,
        metadata_json := metadata_json, started_at := env.now, ended_at := none })

/-- `log_agent_end(agent_id, status)` (`lib/logger.py` lines 123-143): a
row-level UPDATE keyed on `agent_id`; all storage errors are swallowed, so
the operation is total. -/
def log_agent_end (agent_id status : String) (now : String) (db : DB) : DB :=
  { db with agents := db.agents.map (fun r =>
      if r.agent_id == agent_id then { r with completed_at := some now, status := status }
      else r) }

/-- `log_tool_call_start(tool_name, parameters, agent_id, session_id)`
(`lib/logger.py` lines 146-193): resolve context, ensure the session row
exists, compress the parameters, and insert a `started` row whose
auto-assigned id is returned. -/
def log_tool_call_start (tool_name : String) (parameters : PyData)
    (aid? sid? : Option String) (env : Env) (ctx : Ctx) (db : DB) :
    Option Nat × Ctx × DB :=
  let r1 : String × Ctx :=
    match sid? with
    | some s => (s, ctx)
    | none => get_current_session env ctx
  let sid := r1.1
  let r2 : Option String × Ctx :=
    match aid? with
    | some a => (some a, r1.2)
    | none => get_current_agent env r1.2
  let aid := r2.1
  let r3 := log_session_start (some sid) none none none env r2.2 db false
  let ctx3 := r3.2.1
  let db3 := r3.2.2
  let pc := compress_if_large parameters DEFAULT_COMPRESSION_THRESHOLD
  let row : ToolCallRow :=
    if pc.2 then
      { id := db3.next_tool_call_id, agent_id := aid, session_id := sid,
        tool_name := tool_name, parameters_json := none,
        parameters_compressed := pc.1.asBlob, is_compressed := true,
        result_json := none, result_compressed := none, status := "started",
        called_at := env.now, completed_at := none, duration_ms := none,
        error_message := none }
    else
      { id := db3.next_tool_call_id, agent_id := aid, session_id := sid,
        tool_name := tool_name, parameters_json := pc.1.asText,
        parameters_compressed := none, is_compressed := false,
        result_json := none, result_compressed := none, status := "started",
        called_at := env.now, completed_at := none, duration_ms := none,
        error_message := none }
  (some db3.next_tool_call_id, ctx3,
    { db3 with tool_calls := db3.tool_calls ++ [row],
               next_tool_call_id := db3.next_tool_call_id + 1 })

/-- `log_tool_call_end(call_id, result, duration_ms, status, error_message)`
(`lib/logger.py` lines 196-240): an immediate return when `call_id` is
`None`, otherwise an UPDATE keyed on `id` that stores the result in the
column its own size selects.  Note the UPDATE never touches the
`is_compressed` flag. -/
def log_tool_call_end (call_id : Option Nat) (result : PyData)
    (duration_ms : Option Int) (status : String) (error_message : Option String)
    (now : String) (db : DB) : DB :=
  match call_id with
  | none => db
  | some cid =>
    let rc := compress_if_large result DEFAULT_COMPRESSION_THRESHOLD
    if rc.2 then
      { db with tool_calls := db.tool_calls.map (fun r =>
          if r.id == cid then
            { r with completed_at := some now, result_compressed := rc.1.asBlob,
                     duration_ms := duration_ms, status := status,
                     error_message := error_message }
          else r) }
    else
      { db with tool_calls := db.tool_calls.map (fun r =>
          if r.id == cid then
            { r with completed_at := some now, result_json := rc.1.asText,
                     duration_ms := duration_ms, status := status,
                     error_message := error_message }
          else r) }

/-- `log_modification(tool_call_id, modification_type, file_path,
old_content, new_content, agent_id)` (`lib/logger.py` lines 243-287).
Hashes are computed under Python truthiness (`if old_content`), so empty
strings are skipped like `None`; the diff is an unconditionally compressed
`{old, new}` payload when both contents are truthy. -/
def log_modification (tool_call_id : Option Nat) (modification_type file_path : String)
    (old_content new_content : Option String) (aid? : Option String)
    (env : Env) (ctx : Ctx) (db : DB) : Ctx × DB :=
  let r1 : Option String × Ctx :=
    match aid? with
    | some a => (some a, ctx)
    | none => get_current_agent env ctx
  let aid := r1.1
  let old_hash : Option String :=
    match old_content with
    | some s => if s == "" then none else some (sha256hex s)
    | none => none
  let new_hash : Option String :=
    match new_content with
    | some s => if s == "" then none else some (sha256hex s)
    | none => none
  let diff_compressed : Option Bytes :=
    match old_content, new_content with
    | some o, some n =>
      if o == "" || n == "" then none
      else some (compress_data (.ofDict [("old", .jstr o), ("new", .jstr n)]))
    | _, _ => none
  let row : ModificationRow :=
    { id := db.next_modification_id, tool_call_id := tool_call_id, agent_id := aid,
      modification_type := modification_type, file_path := file_path,
      old_content_hash := old_hash, new_content_hash := new_hash,
      diff_compressed := diff_compressed, modified_at := env.now }
  (r1.2, { db with modifications := db.modifications ++ [row],
                   next_modification_id := db.next_modification_id + 1 })

/-- `create_snapshot(snapshot_type, state_data, agent_id, session_id)`
(`lib/logger.py` lines 290-334): resolve context, compress the state, and
insert one immutable row. -/
def create_snapshot (snapshot_type : String) (state_data : PyData)
    (aid? sid? : Option String) (env : Env) (ctx : Ctx) (db : DB) :
    Option Nat × Ctx × DB :=
  let r1 : String × Ctx :=
    match sid? with
    | some s => (s, ctx)
    | none => get_current_session env ctx
  let sid := r1.1
  let r2 : Option String × Ctx :=
    match aid? with
    | some a => (some a, r1.2)
    | none => get_current_agent env r1.2
  let aid := r2.1
  let sc := compress_if_large state_data DEFAULT_COMPRESSION_THRESHOLD
  let row : SnapshotRow :=
    if sc.2 then
      { id := db.next_snapshot_id, session_id := sid, agent_id := aid,
        snapshot_type := snapshot_type, state_json := none,
        state_compressed := sc.1.asBlob, is_compressed := true, created_at := env.now }
    else
      { id := db.next_snapshot_id, session_id := sid, agent_id := aid,
        snapshot_type := snapshot_type, state_json := sc.1.asText,
        state_compressed := none, is_compressed := false, created_at := env.now }
  (some db.next_snapshot_id, r2.2,
    { db with state_snapshots := db.state_snapshots ++ [row],
              next_snapshot_id := db.next_snapshot_id + 1 })

/-! ## Shared helper definitions for concrete scenarios -/

/-- An environment with an explicit session id, no agent signals, and no
filesystem artifacts. -/
def envPlain : Env := ⟨some "S1", none, none, none, none, "/w", "t0", 7⟩

/-- A 10241-byte ASCII string: one byte over the default compression
threshold. -/
def bigStr : String := String.mk (List.replicate 10241 'a')

/-- The tool-call-start half of the flag-divergence scenario: small (27
bytes as a plain string) parameters, so the inserted row has
`is_compressed = 0`. -/
def flagBugStart := log_tool_call_start "Write" (.ofStr "p") none none envPlain ctx0 emptyDB

/-- The store after completing that call with an over-threshold result. -/
def flagBugDB : DB :=
  log_tool_call_end flagBugStart.1 (.ofStr bigStr) (some 5) "completed" none "t1" flagBugStart.2.2


/-- The per-call arguments of `log_session_start` other than the session id. -/
structure SessionArgs where
  user_command : Option String
  working_directory : Option String
  metadata : Option (List (String × JVal))

/-- A sequence of `log_session_start` calls for one fixed session id `S`,
threading the context and store through. -/
def applySessionStarts (S : String) (env : Env) : List SessionArgs → Ctx × DB → Ctx × DB
  | [], st => st
  | a :: rest, st =>
    let r := log_session_start (some S) a.user_command a.working_directory a.metadata
      env st.1 st.2 false
    applySessionStarts S env rest (r.2.1, r.2.2)

/-- The number of `sessions` rows carrying a given session id. -/
def sessionRowCount (db : DB) (S : String) : Nat :=
  (db.sessions.filter (fun r => r.session_id == S)).length

/-- An environment carrying both an explicit session id and an on-disk
session marker, to exhibit the resolver preferring the former. -/
def envMarked : Env := ⟨some "env-sid", none, some [⟨"session-disk", 5⟩], none, none, "/w", "t0", 3⟩

/-- A second, entirely different environment (no session id variable, a
different marker) used to show the cached resolution wins later. -/
def envOther : Env := ⟨none, none, some [⟨"session-other", 9⟩], none, none, "/q", "t9", 4⟩

/-- Python's `max(files, key=mtime)` over task output files (first maximum
wins), used to phrase what the claim says the inference returns. -/
def maxTaskFileByMtimeFirst : List TaskFile → Option TaskFile
  | [] => none
  | x :: xs => some (xs.foldl (fun acc y => if y.mtime > acc.mtime then y else acc) x)

/-- The inference as the claim words it (spec-side definition, for
comparison with the code): the stem of the most recently modified output
file across ALL task directories. -/
def specMostRecentOutputStem (env : Env) : Option String :=
  match env.tmp_claude with
  | none => none
  | some dirs =>
    match maxTaskFileByMtimeFirst (dirs.map outputFiles).flatten with
    | some f => some (stem f.name)
    | none => none

/-- A recently modified task directory holding an old output file. -/
def dirA : TaskDir := ⟨10, [⟨"a.output", 1⟩]⟩

/-- An older task directory holding the most recently modified output file. -/
def dirB : TaskDir := ⟨5, [⟨"b.output", 99⟩]⟩

/-- An environment whose task area makes directory recency and file recency
disagree. -/
def envTwoDirs : Env := ⟨none, none, none, some [dirA, dirB], none, "/w", "t", 1⟩

/-- The store after logging a modification whose new content is the empty
string (present but falsy). -/
def modEmptyNew : DB :=
  (log_modification (some 1) "file_write" "/a.txt" none (some "") (some "ag")
    envPlain ctx0 emptyDB).2

/-- A store holding exactly one agent row, id `a1`. -/
def dbOneAgent : DB :=
  { emptyDB with agents := [⟨"a1", "S1", "helper", none, none, none, "running", none⟩] }

/-- The columns of a freshly started tool-call row: parameters stored in
clear text, both result columns NULL. -/
def startedRowFields : List (String × SqlVal) :=
  [("id", .int 1), ("is_compressed", .int 0), ("parameters_json", .text "p"),
   ("result_json", .null), ("result_compressed", .null)]

/-! ## Helper lemmas -/

theorem foldl_utf8_replicate (n a : Nat) :
    (List.replicate n 'a').foldl (fun m c => m + c.utf8Size) a = a + n := by
  induction n generalizing a with
  | zero => simp
  | succ k ih =>
    rw [List.replicate_succ, List.foldl_cons, ih]
    have h : ('a').utf8Size = 1 := rfl
    omega

theorem utf8Len_bigStr : utf8Len bigStr = 10241 := by
  show (List.replicate 10241 'a').foldl (fun m c => m + c.utf8Size) 0 = 10241
  rw [foldl_utf8_replicate]

theorem cil_str (s : String) : compress_if_large (.ofStr s) DEFAULT_COMPRESSION_THRESHOLD =
    if utf8Len s > 10240 then (.blob (Bytes.gz s), true) else (.text s, false) := rfl

theorem cil_big : compress_if_large (.ofStr bigStr) DEFAULT_COMPRESSION_THRESHOLD =
    (.blob (Bytes.gz bigStr), true) := by
  rw [cil_str, utf8Len_bigStr]
  simp

/-- When the result's own size selects the compressed column,
`log_tool_call_end` populates `result_compressed` and touches no flag. -/
theorem log_tool_call_end_compressed (cid : Nat) (d : PyData) (b : Bytes)
    (dur : Option Int) (status : String) (err : Option String) (now : String) (db : DB)
    (h : compress_if_large d DEFAULT_COMPRESSION_THRESHOLD = (.blob b, true)) :
    log_tool_call_end (some cid) d dur status err now db =
    { db with tool_calls := db.tool_calls.map (fun r =>
        if r.id == cid then
          { r with completed_at := some now, result_compressed := some b,
                   duration_ms := dur, status := status, error_message := err }
        else r) } := by
  simp [log_tool_call_end, h, Stored.asBlob]

/-! ## The claims -/

/-- C1: the claimed invariant — "the companion is_compressed flag selects
the populated column; in particular after logToolCallEnd the flag correctly
selects between result_json and result_compressed" — fails on the code.
Starting a `Write` call with small parameters leaves `is_compressed = 0`;
completing it with a 10241-byte result stores the result in
`result_compressed` and leaves `result_json` NULL, yet the UPDATE in
`log_tool_call_end` never touches `is_compressed`, so the flag points at
the empty `result_json` column.  (The CLI's own read path,
`cli/query_logs.py` line 159, extracts the result with that flag and would
silently get `None`.) -/
theorem log_tool_call_end_flag_not_updated : flagBugDB.tool_calls.map
    (fun r => (r.is_compressed, r.result_json.isNone, r.result_compressed.isSome)) =
    [(false, true, true)] := by
  have h0 : flagBugStart.2.2.tool_calls =
      [⟨1, none, "S1", "Write", some "p", none, false, none, none, "started", "t0", none, none,
        none⟩] := rfl
  have h1 : flagBugDB =
      log_tool_call_end (some 1) (.ofStr bigStr) (some 5) "completed" none "t1"
        flagBugStart.2.2 := rfl
  rw [h1, log_tool_call_end_compressed 1 _ _ _ _ _ _ _ cil_big]
  simp only []
  rw [h0]
  rfl

/-- C2: the threshold law of `compress_if_large`: a payload whose canonical
serialization is at most `threshold` UTF-8 bytes is stored as that plain
string with `is_compressed = false`, and a strictly larger payload is
stored as a compressed blob with `is_compressed = true`. -/
theorem compress_if_large_threshold_law (d : PyData) (t : Nat) :
    (utf8Len (canonicalSerialize d) ≤ t →
      compress_if_large d t = (.text (canonicalSerialize d), false)) ∧
    (utf8Len (canonicalSerialize d) > t →
      compress_if_large d t = (.blob (Bytes.gz (canonicalSerialize d)), true)) := by
  cases d <;> constructor <;> intro h <;>
    simp only [compress_if_large, canonicalSerialize] at h ⊢ <;> split <;>
    first
      | rfl
      | (rename_i hc; omega)

/-- C2 witness: the threshold law applied at the concrete payload `"hi"`
with thresholds 100 (under) and 1 (over). -/
theorem compress_if_large_threshold_law_witness :
    (utf8Len (canonicalSerialize (.ofStr "hi")) ≤ 100 ∧
      compress_if_large (.ofStr "hi") 100 = (.text "hi", false)) ∧
    (utf8Len (canonicalSerialize (.ofStr "hi")) > 1 ∧
      compress_if_large (.ofStr "hi") 1 = (.blob (Bytes.gz "hi"), true)) :=
  ⟨⟨by decide, (compress_if_large_threshold_law (.ofStr "hi") 100).1 (by decide)⟩,
   ⟨by decide, (compress_if_large_threshold_law (.ofStr "hi") 1).2 (by decide)⟩⟩

/-- C3: round-trip — decompressing the unconditional compression of any
payload yields exactly its canonical serialization (the string itself for a
str, the compact JSON rendering for a dict or list). -/
theorem decompress_compress_roundtrip (d : PyData) :
    decompress_data (some (compress_data d)) = .ok (some (canonicalSerialize d)) := by
  cases d <;> rfl

/-! ## Further helper lemmas -/

theorem sessionExists_of_count_pos (db : DB) (S : String) (h : 0 < sessionRowCount db S) :
    sessionExists db S = true := by
  unfold sessionRowCount at h
  unfold sessionExists
  rw [List.any_eq_true]
  rcases List.exists_mem_of_length_pos h with ⟨r, hr⟩
  have := List.of_mem_filter hr
  exact ⟨r, List.mem_of_mem_filter hr, this⟩

theorem lss_noop (S : String) (env : Env) (a : SessionArgs) (ctx : Ctx) (db : DB)
    (h : sessionExists db S = true) :
    log_session_start (some S) a.user_command a.working_directory a.metadata env ctx db false
      = (S, ctx, db) := by
  simp [log_session_start, insertSessionOrIgnore, h]

theorem applySessionStarts_preserves (S : String) (env : Env) (calls : List SessionArgs) :
    ∀ (ctx : Ctx) (db : DB), sessionRowCount db S = 1 →
    sessionRowCount (applySessionStarts S env calls (ctx, db)).2 S = 1 := by
  induction calls with
  | nil => intro ctx db h; exact h
  | cons a rest ih =>
    intro ctx db h
    have hex : sessionExists db S = true := sessionExists_of_count_pos db S (by omega)
    show sessionRowCount (applySessionStarts S env (a :: rest) (ctx, db)).2 S = 1
    rw [applySessionStarts]
    rw [lss_noop S env a ctx db hex]
    exact ih ctx db h

theorem lss_insert_count (S : String) (env : Env) (a : SessionArgs) (ctx : Ctx) (db : DB)
    (h : sessionExists db S = false) :
    sessionRowCount (log_session_start (some S) a.user_command a.working_directory a.metadata
      env ctx db false).2.2 S = sessionRowCount db S + 1 := by
  simp [log_session_start, insertSessionOrIgnore, h, sessionRowCount]

theorem sessionFromEnvVar_hit (env : Env) (ctx : Ctx) (s : String)
    (he : env.claude_session_id = some s) (hs : s ≠ "") :
    sessionFromEnvVar env ctx = (s, { ctx with session_id := some s }) := by
  unfold sessionFromEnvVar
  rw [he]
  simp [hs]

theorem get_current_session_cached (env : Env) (ctx : Ctx) (s : String)
    (hctx : ctx.session_id = some s) (hs : s ≠ "") :
    get_current_session env ctx = (s, ctx) := by
  unfold get_current_session
  rw [hctx]
  simp [hs]

theorem scanTaskDirs_eq_none_iff (l : List TaskDir) :
    scanTaskDirs l = none ↔ ∀ d ∈ l, outputFiles d = [] := by
  induction l with
  | nil => simp [scanTaskDirs]
  | cons d ds ih =>
    rw [scanTaskDirs]
    cases hh : (outputFiles d).head? with
    | some f =>
      simp only [hh]
      constructor
      · intro h; exact absurd h (by simp)
      · intro h
        have : outputFiles d = [] := h d (by simp)
        rw [this] at hh
        simp at hh
    | none =>
      rw [List.head?_eq_none_iff] at hh
      simp [ih, hh]

theorem scanTaskDirs_eq_some (l : List TaskDir) (a : String) (h : scanTaskDirs l = some a) :
    ∃ pre d post, l = pre ++ d :: post ∧ (∀ d' ∈ pre, outputFiles d' = []) ∧
      ∃ f, (outputFiles d).head? = some f ∧ a = stem f.name := by
  induction l with
  | nil => simp [scanTaskDirs] at h
  | cons d ds ih =>
    rw [scanTaskDirs] at h
    cases hh : (outputFiles d).head? with
    | some f =>
      rw [hh] at h
      injection h with h
      exact ⟨[], d, ds, rfl, by simp, f, hh, h.symm⟩
    | none =>
      rw [hh] at h
      rcases ih h with ⟨pre, d', post, heq, hpre, hf⟩
      refine ⟨d :: pre, d', post, by simp [heq], ?_, hf⟩
      intro x hx
      rcases List.mem_cons.mp hx with hx | hx
      · subst hx
        exact List.head?_eq_none_iff.mp hh
      · exact hpre x hx

theorem stem_of_output_ne_empty (n : String) (h : strEndsWith n ".output" = true) :
    stem n ≠ "" := by
  unfold strEndsWith at h
  rw [List.isSuffixOf_iff_suffix] at h
  have hlen : 7 ≤ n.data.length := by
    have := h.length_le
    simpa using this
  unfold stem
  show (match lastDotPos n.data with
        | some i => if 0 < i ∧ i + 1 < n.data.length then String.mk (n.data.take i) else n
        | none => n) ≠ ""
  cases hd : lastDotPos n.data with
  | none =>
    show n ≠ ""
    intro he
    have : n.data = [] := by simpa using congrArg String.data he
    rw [this] at hlen
    simp at hlen
  | some i =>
    show (if 0 < i ∧ i + 1 < n.data.length then String.mk (n.data.take i) else n) ≠ ""
    by_cases hc : 0 < i ∧ i + 1 < n.data.length
    · rw [if_pos hc]
      intro he
      have hdata : n.data.take i = [] := by simpa using congrArg String.data he
      have hlt : (n.data.take i).length = 0 := by rw [hdata]; rfl
      rw [List.length_take] at hlt
      omega
    · rw [if_neg hc]
      intro he
      have : n.data = [] := by simpa using congrArg String.data he
      rw [this] at hlen
      simp at hlen

theorem get_current_agent_gates (env : Env) (ctx : Ctx)
    (henv : optTruthy env.claude_agent_id = false)
    (hstack : ctx.agent_stack = [])
    (hcache : optTruthy ctx.agent_id = false) :
    get_current_agent env ctx = agentFromParse env ctx := by
  have h1 : agentFromCache env ctx = agentFromParse env ctx := by
    unfold agentFromCache
    cases hc : ctx.agent_id with
    | none => rfl
    | some a =>
      simp only [optTruthy, hc] at hcache
      have : a = "" := by simpa using hcache
      simp [this]
  have h2 : agentFromStack env ctx = agentFromParse env ctx := by
    unfold agentFromStack
    rw [hstack]
    simpa using h1
  unfold get_current_agent
  cases he : env.claude_agent_id with
  | none => exact h2
  | some a =>
    simp only [optTruthy, he] at henv
    have : a = "" := by simpa using henv
    simp [this, h2]

theorem foundDir_max (l : List TaskDir) (hs : List.Sorted dirGE l)
    (pre : List TaskDir) (d : TaskDir) (post : List TaskDir) (heq : l = pre ++ d :: post)
    (hpre : ∀ d' ∈ pre, outputFiles d' = []) :
    ∀ d' ∈ l, outputFiles d' ≠ [] → d'.mtime ≤ d.mtime := by
  intro d' hd' hout
  rw [heq] at hs hd'
  rw [List.Sorted, List.pairwise_append] at hs
  rcases hs with ⟨hs1, hs2, hcross⟩
  rw [List.pairwise_cons] at hs2
  rcases List.mem_append.mp hd' with hmem | hmem
  · exact absurd (hpre d' hmem) hout
  · rcases List.mem_cons.mp hmem with hmem | hmem
    · subst hmem; exact Nat.le_refl _
    · exact hs2.1 d' hmem

/-! ## The claims, continued -/

/-- C4: `log_session_start` is idempotent on the `sessions` table: starting
with a store holding at most one row for session id `S`, any nonempty
sequence of calls for `S` (with arbitrary other arguments) leaves exactly
one row with that id, and any call made while a row for `S` exists returns
the id and leaves the store (hence every field of the existing row)
untouched. -/
theorem log_session_start_idempotent (S : String) (env : Env) (ctx : Ctx) (db : DB)
    (calls : List SessionArgs) (h1 : sessionRowCount db S ≤ 1) (h2 : calls ≠ []) :
    sessionRowCount (applySessionStarts S env calls (ctx, db)).2 S = 1 ∧
    (∀ (a : SessionArgs) (ctx' : Ctx) (db' : DB), sessionExists db' S = true →
      log_session_start (some S) a.user_command a.working_directory a.metadata env ctx' db' false
        = (S, ctx', db')) := by
  constructor
  · match calls with
    | [] => exact absurd rfl h2
    | a :: rest =>
      rw [applySessionStarts]
      by_cases hex : sessionExists db S = true
      · have hc1 : sessionRowCount db S = 1 := by
          rcases Nat.eq_or_lt_of_le h1 with h | h
          · omega
          · exfalso
            unfold sessionExists at hex
            rw [List.any_eq_true] at hex
            rcases hex with ⟨r, hr, hrs⟩
            have : r ∈ db.sessions.filter (fun r => r.session_id == S) :=
              List.mem_filter.mpr ⟨hr, hrs⟩
            have := List.length_pos.mpr (List.ne_nil_of_mem this)
            unfold sessionRowCount at h
            omega
        rw [lss_noop S env a ctx db hex]
        exact applySessionStarts_preserves S env rest ctx db hc1
      · have hex' : sessionExists db S = false := by
          cases hx : sessionExists db S
          · rfl
          · exact absurd hx hex
        have hc0 : sessionRowCount db S = 0 := by
          by_contra hne
          exact absurd (sessionExists_of_count_pos db S (by omega)) (by simp [hex'])
        have step := lss_insert_count S env a ctx db hex'
        rw [hc0] at step
        exact applySessionStarts_preserves S env rest
          (log_session_start (some S) a.user_command a.working_directory a.metadata
            env ctx db false).2.1
          (log_session_start (some S) a.user_command a.working_directory a.metadata
            env ctx db false).2.2
          step
  · intro a ctx' db' h
    exact lss_noop S env a ctx' db' h

/-- C4 witness: two calls for session id `S1` on the empty store leave
exactly one `S1` row. -/
theorem log_session_start_idempotent_witness :
    sessionRowCount emptyDB "S1" ≤ 1 ∧
    sessionRowCount (applySessionStarts "S1" envPlain
      [⟨none, none, none⟩, ⟨some "c", some "/w", none⟩] (ctx0, emptyDB)).2 "S1" = 1 :=
  ⟨by decide, (log_session_start_idempotent "S1" envPlain ctx0 emptyDB
      [⟨none, none, none⟩, ⟨some "c", some "/w", none⟩] (by decide)
      (List.cons_ne_nil _ _)).1⟩

/-- C5: with no cached resolution and a truthy explicit session-id
environment variable, `get_current_session` returns that value regardless
of the marker files, and the result is cached: every later call, under any
environment, returns the same id. -/
theorem get_current_session_env_precedence (env : Env) (ctx : Ctx) (s : String)
    (hc : optTruthy ctx.session_id = false)
    (he : env.claude_session_id = some s) (hs : s ≠ "") :
    (get_current_session env ctx).1 = s ∧
    ∀ env2 : Env, (get_current_session env2 (get_current_session env ctx).2).1 = s := by
  have hmain : get_current_session env ctx = (s, { ctx with session_id := some s }) := by
    unfold get_current_session
    cases hctx : ctx.session_id with
    | none => exact sessionFromEnvVar_hit env ctx s he hs
    | some c =>
      simp only [optTruthy, hctx] at hc
      have hce : c = "" := by simpa using hc
      simp only [hce]
      simp [sessionFromEnvVar_hit env ctx s he hs]
  constructor
  · rw [hmain]
  · intro env2
    rw [hmain]
    rw [get_current_session_cached env2 _ s rfl hs]

/-- C5 witness: in an environment that has both `CLAUDE_SESSION_ID` and a
marker file on disk the variable wins, and a later call under a different
environment (variable unset, different marker) still returns the cached
id. -/
theorem get_current_session_env_precedence_witness :
    (optTruthy ctx0.session_id = false ∧ envMarked.claude_session_id = some "env-sid") ∧
    (get_current_session envMarked ctx0).1 = "env-sid" ∧
    (get_current_session envOther (get_current_session envMarked ctx0).2).1 = "env-sid" :=
  ⟨⟨rfl, rfl⟩,
   (get_current_session_env_precedence envMarked ctx0 "env-sid" rfl rfl (by decide)).1,
   (get_current_session_env_precedence envMarked ctx0 "env-sid" rfl rfl (by decide)).2 envOther⟩

/-- C6 counterexample: with two task directories — a recently modified
directory whose output file is old, and an older directory holding the most
recently modified output file — `get_current_agent` returns the stem `a`
from the recent directory, while the claim's "most recently modified task
output file across all task directories" is `b.output`.  (The code also
takes the first-listed, not the most recently modified, file within the
chosen directory.) -/
theorem get_current_agent_counterexample :
    (get_current_agent envTwoDirs ctx0).1 = some "a" ∧
    specMostRecentOutputStem envTwoDirs = some "b" := ⟨rfl, rfl⟩

/-- C6 as amended: when no environment agent id, no stacked agent, and no
cached agent exist, `get_current_agent` returns null exactly when no task
directory contains an output file, and otherwise returns the filename stem
of the first-listed output file of a task directory that is most recently
modified among the directories containing output files. -/
theorem get_current_agent_inference (env : Env) (ctx : Ctx) (dirs : List TaskDir)
    (henv : optTruthy env.claude_agent_id = false)
    (hstack : ctx.agent_stack = [])
    (hcache : optTruthy ctx.agent_id = false)
    (hdirs : env.tmp_claude = some dirs) :
    ((get_current_agent env ctx).1 = none ↔ ∀ d ∈ dirs, outputFiles d = []) ∧
    (∀ a, (get_current_agent env ctx).1 = some a →
      ∃ d ∈ dirs, (∃ f, (outputFiles d).head? = some f ∧ a = stem f.name) ∧
        ∀ d' ∈ dirs, outputFiles d' ≠ [] → d'.mtime ≤ d.mtime) := by
  rw [get_current_agent_gates env ctx henv hstack hcache]
  have hparse : parse_agent_from_environment env =
      (if dirs.isEmpty then none else scanTaskDirs (sortTaskDirsDesc dirs)) := by
    unfold parse_agent_from_environment
    rw [hdirs]
  have hscan_ne : ∀ a, scanTaskDirs (sortTaskDirsDesc dirs) = some a → a ≠ "" := by
    intro a ha
    rcases scanTaskDirs_eq_some _ a ha with ⟨pre, d, post, heq, hpre, f, hf, hstem⟩
    have hfmem : f ∈ outputFiles d := List.mem_of_mem_head? hf
    have hsuf : strEndsWith f.name ".output" = true := by
      have := List.mem_filter.mp hfmem
      exact this.2
    rw [hstem]
    exact stem_of_output_ne_empty f.name hsuf
  constructor
  · constructor
    · intro hres
      unfold agentFromParse at hres
      rw [hparse] at hres
      by_cases hde : dirs.isEmpty
      · intro d hd
        rw [List.isEmpty_iff] at hde
        subst hde
        simp at hd
      · rw [if_neg hde] at hres
        cases hsc : scanTaskDirs (sortTaskDirsDesc dirs) with
        | some a =>
          rw [hsc] at hres
          have hne := hscan_ne a hsc
          have hbe : (a == "") = false := by simpa using hne
          simp [hbe] at hres
        | none =>
          intro d hd
          exact (scanTaskDirs_eq_none_iff _).mp hsc d
            (by rw [sortTaskDirsDesc, List.mem_insertionSort]; exact hd)
    · intro hall
      unfold agentFromParse
      rw [hparse]
      by_cases hde : dirs.isEmpty
      · rw [if_pos hde]
      · rw [if_neg hde]
        have : scanTaskDirs (sortTaskDirsDesc dirs) = none := by
          rw [scanTaskDirs_eq_none_iff]
          intro d hd
          exact hall d (by rw [sortTaskDirsDesc, List.mem_insertionSort] at hd; exact hd)
        rw [this]
  · intro a hres
    unfold agentFromParse at hres
    rw [hparse] at hres
    by_cases hde : dirs.isEmpty
    · rw [if_pos hde] at hres
      simp at hres
    · rw [if_neg hde] at hres
      cases hsc : scanTaskDirs (sortTaskDirsDesc dirs) with
      | none => rw [hsc] at hres; simp at hres
      | some a' =>
        rw [hsc] at hres
        have hne := hscan_ne a' hsc
        have hbe : (a' == "") = false := by simpa using hne
        simp only [hbe] at hres
        have haa : a' = a := by simpa using hres
        subst haa
        rcases scanTaskDirs_eq_some _ a' hsc with ⟨pre, d, post, heq, hpre, f, hf, hstem⟩
        have hdmem : d ∈ sortTaskDirsDesc dirs := by rw [heq]; simp
        refine ⟨d, ?_, ⟨f, hf, hstem⟩, ?_⟩
        · rw [sortTaskDirsDesc, List.mem_insertionSort] at hdmem
          exact hdmem
        · intro d' hd' hout
          have hsorted : List.Sorted dirGE (sortTaskDirsDesc dirs) :=
            List.sorted_insertionSort dirGE dirs
          exact foundDir_max _ hsorted pre d post heq hpre d'
            (by rw [sortTaskDirsDesc, List.mem_insertionSort]; exact hd') hout

/-- C6 witness: the amended inference applied to the two-directory
environment — the result `a` is the stem of the first output file of the
maximal-mtime directory (among directories with output files). -/
theorem get_current_agent_inference_witness :
    (optTruthy envTwoDirs.claude_agent_id = false ∧ ctx0.agent_stack = [] ∧
      optTruthy ctx0.agent_id = false ∧ envTwoDirs.tmp_claude = some [dirA, dirB]) ∧
    (∃ d ∈ [dirA, dirB], (∃ f, (outputFiles d).head? = some f ∧ "a" = stem f.name) ∧
      ∀ d' ∈ [dirA, dirB], outputFiles d' ≠ [] → d'.mtime ≤ d.mtime) :=
  ⟨⟨rfl, rfl, rfl, rfl⟩,
   (get_current_agent_inference envTwoDirs ctx0 [dirA, dirB] rfl rfl rfl rfl).2 "a" rfl⟩

/-- C7 counterexample: logging a `file_write` whose new content is present
but empty (`new_content = ""`) inserts a row with `new_content_hash = NULL`
— Python truthiness skips hashing the empty string — refuting the claim's
"including when the present content is the empty string". -/
theorem log_modification_empty_content_unhashed :
    modEmptyNew.modifications.map
      (fun r => (r.new_content_hash, r.old_content_hash, r.diff_compressed))
      = [(none, none, none)] := rfl

/-- C7 as amended: `log_modification` inserts exactly one row; when old
content is present and non-empty its SHA-256 digest is stored in
`old_content_hash` (likewise for new content), and when both contents are
present and non-empty a compressed `{old, new}` payload is stored in
`diff_compressed`.  Empty-string content is treated like absent content. -/
theorem log_modification_hashes (tcid : Option Nat) (mtype fpath : String)
    (old new : Option String) (aid? : Option String) (env : Env) (ctx : Ctx) (db : DB) :
    ∃ row : ModificationRow,
      (log_modification tcid mtype fpath old new aid? env ctx db).2.modifications
        = db.modifications ++ [row] ∧
      (∀ so, old = some so → so ≠ "" → row.old_content_hash = some (sha256hex so)) ∧
      (∀ sn, new = some sn → sn ≠ "" → row.new_content_hash = some (sha256hex sn)) ∧
      (∀ so sn, old = some so → new = some sn → so ≠ "" → sn ≠ "" →
        row.diff_compressed
          = some (compress_data (.ofDict [("old", .jstr so), ("new", .jstr sn)]))) := by
  refine ⟨_, rfl, ?_, ?_, ?_⟩
  · intro so h1 h2
    subst h1
    have hb : (so == "") = false := by simpa using h2
    simp [hb]
  · intro sn h1 h2
    subst h1
    have hb : (sn == "") = false := by simpa using h2
    simp [hb]
  · intro so sn h1 h2 h3 h4
    subst h1; subst h2
    have hb1 : (so == "") = false := by simpa using h3
    have hb2 : (sn == "") = false := by simpa using h4
    simp [hb1, hb2]

/-- C7 witness: a `file_edit` with non-empty contents `x`/`y` stores both
hashes and the compressed `{old, new}` diff payload. -/
theorem log_modification_hashes_witness :
    ∃ row : ModificationRow,
      (log_modification (some 2) "file_edit" "/b.txt" (some "x") (some "y") (some "ag")
        envPlain ctx0 emptyDB).2.modifications = emptyDB.modifications ++ [row] ∧
      row.old_content_hash = some (sha256hex "x") ∧
      row.new_content_hash = some (sha256hex "y") ∧
      row.diff_compressed
        = some (compress_data (.ofDict [("old", .jstr "x"), ("new", .jstr "y")])) := by
  rcases log_modification_hashes (some 2) "file_edit" "/b.txt" (some "x") (some "y")
    (some "ag") envPlain ctx0 emptyDB with ⟨row, h1, h2, h3, h4⟩
  exact ⟨row, h1, h2 "x" rfl (by decide), h3 "y" rfl (by decide),
    h4 "x" "y" rfl rfl (by decide) (by decide)⟩

/-- C8: `log_tool_call_end` with a null call id returns before touching the
store, and `log_agent_end` with an agent id matching no row updates
nothing; both are total functions of the store (the source swallows every
storage exception), so neither raises and every table is left unchanged. -/
theorem orphan_safe_end_ops (result : PyData) (dur : Option Int) (status : String)
    (err : Option String) (now : String) (db : DB) (aid ast : String)
    (h : ∀ r ∈ db.agents, r.agent_id ≠ aid) :
    log_tool_call_end none result dur status err now db = db ∧
    log_agent_end aid ast now db = db := by
  constructor
  · rfl
  · unfold log_agent_end
    have hmap : db.agents.map (fun r =>
        if r.agent_id == aid then { r with completed_at := some now, status := ast } else r)
        = db.agents := by
      conv_rhs => rw [← List.map_id db.agents]
      apply List.map_congr_left
      intro r hr
      have := h r hr
      simp [this]
    rw [hmap]

/-- C8 witness: on a store with one agent row `a1`, ending a null call and
ending unknown agent `zz` both leave the store untouched. -/
theorem orphan_safe_end_ops_witness :
    (∀ r ∈ dbOneAgent.agents, r.agent_id ≠ "zz") ∧
    log_tool_call_end none (.ofStr "r") none "completed" none "t1" dbOneAgent = dbOneAgent ∧
    log_agent_end "zz" "completed" "t1" dbOneAgent = dbOneAgent := by
  have h : ∀ r ∈ dbOneAgent.agents, r.agent_id ≠ "zz" := by decide
  exact ⟨h,
    (orphan_safe_end_ops (.ofStr "r") none "completed" none "t1"
      dbOneAgent "zz" "completed" h).1,
    (orphan_safe_end_ops (.ofStr "r") none "completed" none "t1"
      dbOneAgent "zz" "completed" h).2⟩

/-- C9: `log_session_start` returns the given-or-resolved session id — a
`String`, never null — and returns the very same id whether or not the
storage insert fails (in which case the store is untouched): the caller
cannot tell a failed write from a successful one by the return value. -/
theorem log_session_start_swallows_storage_errors (sid? uc? wd? : Option String)
    (md : Option (List (String × JVal))) (env : Env) (ctx : Ctx) (db : DB) :
    (log_session_start sid? uc? wd? md env ctx db true).1
      = (log_session_start sid? uc? wd? md env ctx db false).1 ∧
    (log_session_start sid? uc? wd? md env ctx db true).2.2 = db ∧
    (log_session_start sid? uc? wd? md env ctx db true).1
      = (match sid? with
         | some s => s
         | none => (get_current_session env ctx).1) := by
  cases sid? <;> simp [log_session_start]

/-- C10 counterexample: a dict-like row whose flag is truthy but whose
compressed column is absent and whose json column is populated — exactly
what a completed tool call with over-threshold parameters and a small
result looks like — returns the json value `x`, not null, although the
selected (compressed) column is NULL. -/
theorem get_data_from_row_fallback_nonnull :
    rowGet [("is_compressed", .int 1), ("parameters_json", .text "x")] "parameters_compressed"
      = none ∧
    colTruthy (rowGet [("is_compressed", .int 1), ("parameters_json", .text "x")]
      "is_compressed") = true ∧
    get_data_from_row (fun _ => none)
      (.map [("is_compressed", .int 1), ("parameters_json", .text "x")])
      "parameters_json" "parameters_compressed" "is_compressed" = some (.str "x") :=
  ⟨rfl, rfl, rfl⟩

/-- C10 as amended: `get_data_from_row` never raises (it is a total
function; the outer catch-all maps every internal error to null); it
returns null for every non-dict-like (tuple) row, and for every dict-like
row in which the json text column and the compressed column are both empty
or NULL — e.g. the result of a tool call still in status `started`.  When
the flag selects an empty compressed column but the json column is
populated, the json value is returned instead of null. -/
theorem get_data_from_row_safe (loads : String → Option JVal) (row : SqlRow)
    (jc cc fc : String) :
    (∀ vals, row = .tup vals → get_data_from_row loads row jc cc fc = none) ∧
    (∀ fields, row = .map fields → colTruthy (rowGet fields jc) = false →
      colTruthy (rowGet fields cc) = false → get_data_from_row loads row jc cc fc = none) := by
  constructor
  · intro vals h; subst h; rfl
  · intro fields h hj hcc
    subst h
    unfold get_data_from_row get_data_from_row_body
    simp [hj, hcc]

/-- C10 witness: reading the result columns of a freshly started row yields
null, and a tuple row yields null. -/
theorem get_data_from_row_safe_witness :
    (colTruthy (rowGet startedRowFields "result_json") = false ∧
     colTruthy (rowGet startedRowFields "result_compressed") = false ∧
     get_data_from_row (fun _ => none) (.map startedRowFields)
       "result_json" "result_compressed" "is_compressed" = none) ∧
    get_data_from_row (fun _ => none) (.tup [.int 1])
      "result_json" "result_compressed" "is_compressed" = none :=
  ⟨⟨rfl, rfl,
    (get_data_from_row_safe (fun _ => none) (.map startedRowFields)
      "result_json" "result_compressed" "is_compressed").2 startedRowFields rfl rfl rfl⟩,
   (get_data_from_row_safe (fun _ => none) (.tup [.int 1])
      "result_json" "result_compressed" "is_compressed").1 [.int 1] rfl⟩
